import Mathlib

/-
Verification of the LMS live-class / Zoom integration module
(`lms/lms/doctype/lms_live_class/lms_live_class.py` and the webhook
challenge-responder described by the specification).

The Python code is shallowly embedded: dictionaries coming from JSON or
from `frappe.db.get_value(..., as_dict=True)` become association lists of
`PyVal`s, database state becomes an explicit list of `LiveClassRecord`s,
and every externally visible action (error logging, outbound provider
calls, database writes, notifications) is recorded in an explicit effect
trace.  Fallible steps (HTTP failures, `frappe.throw`, exceptions raised
by helpers) are modelled with `Except`/explicit outcome types.
-/

/-- A Python value as it occurs in the webhook payloads and frappe dicts
handled by this module: `None`, a string, or an integer. -/
inductive PyVal where
  | none
  | str (s : String)
  | int (n : Int)
  deriving DecidableEq, BEq, Repr

/-- A Python dict with string keys, as an association list (insertion
order preserved, first binding wins on lookup). -/
abbrev PyDict := List (String × PyVal)

/-- Python `d.get(key, default)`: the stored value when the key is
present (even if that value is `None`), otherwise the default. -/
def PyDict.getD (d : PyDict) (k : String) (default : PyVal) : PyVal :=
  match d.find? (fun p => p.1 == k) with
  | some p => p.2
  | Option.none => default

/-- Python `d.get(key)` (default `None`). -/
def PyDict.get (d : PyDict) (k : String) : PyVal :=
  d.getD k PyVal.none

/-- Whether a key is present in the dict at all. -/
def PyDict.hasKey (d : PyDict) (k : String) : Bool :=
  (d.find? (fun p => p.1 == k)).isSome

/-- Python truthiness of a `PyVal` (`None`, `""` and `0` are falsy). -/
def PyVal.truthy : PyVal → Bool
  | PyVal.none => false
  | PyVal.str s => !s.isEmpty
  | PyVal.int n => n != 0

/-- Python `str()` of a `PyVal`, as used by f-string interpolation. -/
def PyVal.pyStr : PyVal → String
  | PyVal.none => "None"
  | PyVal.str s => s
  | PyVal.int n => toString n

/-- One row of the `LMS Live Class` doctype, restricted to the columns
this module reads or writes.  `host` and the scheduling columns are
carried so that frame conditions ("every other field is unchanged") can
be stated.  `recording_processed` is the stored 0/1 flag, as a `Bool`. -/
structure LiveClassRecord where
  name : String
  uuid : String
  title : String
  date : String
  time : String
  batch_name : String
  auto_recording : String
  zoom_account : String
  lesson : PyVal
  meeting_id : PyVal
  host : PyVal
  attendees : PyVal
  recording_processed : Bool
  zoom_recording_id : PyVal
  recording_url : PyVal
  recording_passcode : PyVal
  recording_duration : PyVal
  recording_file_size : PyVal
  deriving DecidableEq, Repr

/-- `frappe.db.get_value("LMS Live Class", {"uuid": meeting_uuid}, ...)`:
the first record whose `uuid` column matches. -/
def findByUuid (db : List LiveClassRecord) (uuid : String) : Option LiveClassRecord :=
  db.find? (fun r => r.uuid == uuid)

/-- The first record with the given `name` (doctype names are unique in
frappe; theorems that rely on this take a `Nodup` hypothesis). -/
def recordOf (db : List LiveClassRecord) (name : String) : Option LiveClassRecord :=
  db.find? (fun r => r.name == name)

/-- `frappe.db.get_value("LMS Live Class", name, "recording_processed")`,
used truthily by the idempotence check (source line 202). -/
def getRecordingProcessed (db : List LiveClassRecord) (name : String) : Bool :=
  match recordOf db name with
  | some r => r.recording_processed
  | Option.none => false

/-- The `as_dict=True` result of the lookup at source lines 179-184: a
dict with exactly the six requested fields.  Note that `host` is NOT
among them. -/
def fetchLiveClassDict (r : LiveClassRecord) : PyDict :=
  [("name", PyVal.str r.name),
   ("batch_name", PyVal.str r.batch_name),
   ("auto_recording", PyVal.str r.auto_recording),
   ("zoom_account", PyVal.str r.zoom_account),
   ("lesson", r.lesson),
   ("meeting_id", r.meeting_id)]

/- ### ISO-8601 timestamps (datetime.fromisoformat / timedelta)

The source parses the selected file's `recording_start`/`recording_end`
with `datetime.fromisoformat` after `"Z" -> "+00:00"` replacement
(source lines 256-260).  We model the subset of accepted inputs that the
provider emits: a full `YYYY-MM-DDTHH:MM:SS` timestamp, optionally
followed by a `+HH:MM`/`-HH:MM` offset.  Other shapes map to the
exception outcome, as `fromisoformat` raises `ValueError` on them. -/

/-- Value of a decimal digit character. -/
def digitVal (c : Char) : Option Nat :=
  if c.isDigit then some (c.toNat - 48) else Option.none

def isLeapYear (y : Nat) : Bool :=
  (y % 4 == 0 && y % 100 != 0) || y % 400 == 0

/-- Cumulative days before each month in a non-leap year. -/
def monthOffsets : List Nat := [0, 31, 59, 90, 120, 151, 181, 212, 243, 273, 304, 334]

def monthLengths : List Nat := [31, 28, 31, 30, 31, 30, 31, 31, 30, 31, 30, 31]

def daysInMonth (y m : Nat) : Nat :=
  if m == 2 && isLeapYear y then 29 else monthLengths.getD (m - 1) 0

/-- Number of leap years in `[1, y]`. -/
def leapYearsUpTo (y : Nat) : Nat := y / 4 - y / 100 + y / 400

/-- Days from 1970-01-01 to the given (proleptic Gregorian) date. -/
def daysFromEpoch1970 (y m d : Nat) : Int :=
  let daysToYear : Int :=
    365 * ((y : Int) - 1970) + ((leapYearsUpTo (y - 1) : Int) - (leapYearsUpTo 1969 : Int))
  let monthDays : Int := (monthOffsets.getD (m - 1) 0 : Nat)
  let leapAdjust : Int := if 3 ≤ m && isLeapYear y then 1 else 0
  daysToYear + monthDays + leapAdjust + (d : Int) - 1

/-- Seconds from the epoch for a civil date-time with a UTC offset. -/
def mkEpoch (y mo d hh mi ss : Nat) (offsetSec : Int) : Int :=
  daysFromEpoch1970 y mo d * 86400 + (hh : Int) * 3600 + (mi : Int) * 60 + (ss : Int) - offsetSec

/-- Result of `datetime.fromisoformat`: a point on the time line
(seconds; for naive datetimes relative to the unspecified local zone)
plus whether the datetime is timezone-aware. -/
structure PyDateTime where
  epochSec : Int
  aware : Bool
  deriving DecidableEq, Repr

def parse2Digits (c1 c2 : Char) : Option Nat := do
  let a ← digitVal c1
  let b ← digitVal c2
  pure (10 * a + b)

def parse4Digits (c1 c2 c3 c4 : Char) : Option Nat := do
  let a ← digitVal c1
  let b ← digitVal c2
  let c ← digitVal c3
  let d ← digitVal c4
  pure (1000 * a + 100 * b + 10 * c + d)

/-- `datetime.fromisoformat` on the subset described above; `Option.none`
models the `ValueError` raised on any other input. -/
def parseIso (s : String) : Option PyDateTime :=
  match s.data with
  | y1 :: y2 :: y3 :: y4 :: '-' :: m1 :: m2 :: '-' :: d1 :: d2 :: 'T' ::
      h1 :: h2 :: ':' :: n1 :: n2 :: ':' :: s1 :: s2 :: rest => do
    let y ← parse4Digits y1 y2 y3 y4
    let mo ← parse2Digits m1 m2
    let dy ← parse2Digits d1 d2
    let hh ← parse2Digits h1 h2
    let mi ← parse2Digits n1 n2
    let ss ← parse2Digits s1 s2
    if 1 ≤ y && 1 ≤ mo && mo ≤ 12 && 1 ≤ dy && dy ≤ daysInMonth y mo
        && hh ≤ 23 && mi ≤ 59 && ss ≤ 59 then
      match rest with
      | [] => some (PyDateTime.mk (mkEpoch y mo dy hh mi ss 0) false)
      | sign :: o1 :: o2 :: ':' :: o3 :: o4 :: [] => do
        let oh ← parse2Digits o1 o2
        let om ← parse2Digits o3 o4
        if (sign == '+' || sign == '-') && oh ≤ 23 && om ≤ 59 then
          let off : Int := (oh : Int) * 3600 + (om : Int) * 60
          some (PyDateTime.mk (mkEpoch y mo dy hh mi ss (if sign == '+' then off else -off)) true)
        else Option.none
      | _ => Option.none
    else Option.none
  | _ => Option.none

/-- Python `s.replace("Z", "+00:00")`: for a one-character pattern this
is exactly a character-wise expansion. -/
def replaceZ (s : String) : String :=
  String.mk (s.data.flatMap (fun c => if c == 'Z' then ['+', '0', '0', ':', '0', '0'] else [c]))

/-- Outcome of the duration computation at source lines 251-260: either
the computed `duration_seconds`, or an exception (which the enclosing
`except Exception` block of `process_zoom_recording` catches). -/
inductive DurOutcome where
  | ok (seconds : Int)
  | exn (msg : String)
  deriving DecidableEq, Repr

/-- Source lines 251-260: `duration_seconds = 0`; if both timestamps are
truthy, parse them (after `Z` replacement) and take the whole-second
difference.  Parse failures and naive/aware mixtures raise. -/
def computeDuration (video_file : PyDict) : DurOutcome :=
  let rs := video_file.get "recording_start"
  let rend := video_file.get "recording_end"
  if rs.truthy && rend.truthy then
    match rs, rend with
    | PyVal.str sa, PyVal.str sb =>
      match parseIso (replaceZ sa), parseIso (replaceZ sb) with
      | some da, some db =>
        if da.aware == db.aware then DurOutcome.ok (db.epochSec - da.epochSec)
        else DurOutcome.exn "cannot subtract offset-naive and offset-aware datetimes"
      | _, _ => DurOutcome.exn "invalid isoformat string"
    | _, _ => DurOutcome.exn "replace called on a non-string value"
  else DurOutcome.ok 0

/- ### The recording metadata ingestor (`process_zoom_recording`) -/

/-- The allow-list of `recording_type` values at source lines 208-213. -/
def allowedRecordingTypes : List String :=
  ["shared_screen_with_speaker_view",
   "shared_screen_with_gallery_view",
   "speaker_view",
   "gallery_view"]

/-- The per-descriptor test of the selection loop (source lines 207-215):
`file_type == "MP4"` and `recording_type` in the allow-list. -/
def isMainVideo (f : PyDict) : Bool :=
  decide (f.get "file_type" = PyVal.str "MP4") &&
    allowedRecordingTypes.any (fun t => decide (f.get "recording_type" = PyVal.str t))

/-- The selection loop itself: first descriptor in list order passing
`isMainVideo`, if any. -/
def selectVideoFile (files : List PyDict) : Option PyDict :=
  files.find? isMainVideo

/-- Externally visible actions of one run, in order of occurrence.
`tokenAuth` is the outbound token request made by `authenticate`,
`recordingsGet` the outbound `GET /v2/meetings/.../recordings`. -/
inductive Effect where
  | logError (message : String) (title : String)
  | tokenAuth (account : String)
  | recordingsGet (meetingId : String)
  | setValue (name : String)
  | commit
  | notifyInsert (forUser : String) (subject : String) (docName : String)
  deriving DecidableEq, Repr

def Effect.isProviderCall : Effect → Bool
  | Effect.tokenAuth _ => true
  | Effect.recordingsGet _ => true
  | _ => false

def Effect.isDbWrite : Effect → Bool
  | Effect.setValue _ => true
  | Effect.commit => true
  | Effect.notifyInsert _ _ _ => true
  | _ => false

def Effect.isSetValue : Effect → Bool
  | Effect.setValue _ => true
  | _ => false

def Effect.isNotify : Effect → Bool
  | Effect.notifyInsert _ _ _ => true
  | _ => false

/-- Outcome of the outbound recordings call at source lines 240-243:
a JSON body, a non-2xx status (`raise_for_status` raises `HTTPError`
with text `errStr` and response body `body`), or some other requests
exception with text `msg`. -/
inductive ApiOutcome where
  | ok (recordingData : PyDict)
  | httpError (errStr : String) (body : String)
  | netError (msg : String)

/-- Ambient behaviour of the collaborators of one ingestion run: what
the provider recordings call returns, whether the notification insert
raises, the frappe session user, and the `Course Lesson` title lookup. -/
structure IngestEnv where
  recordingsApi : ApiOutcome
  notifyFails : Bool
  sessionUser : String
  lessonTitle : String → PyVal

def zoomLogTitle : String := "Zoom Recording Processing"

/-- The single `frappe.db.set_value` payload at source lines 263-274
applied to one record: the six recording fields change, nothing else. -/
def recUpdate (x : LiveClassRecord) (rid purl pass : PyVal) (dur : Int) (fsz : PyVal) :
    LiveClassRecord :=
  { x with
    recording_processed := true
    zoom_recording_id := rid
    recording_url := purl
    recording_passcode := pass
    recording_duration := PyVal.int dur
    recording_file_size := fsz }

/-- The same update applied to the database: only the record(s) with the
given name are touched. -/
def applyRecordingUpdate (db : List LiveClassRecord) (name : String)
    (rid purl pass : PyVal) (dur : Int) (fsz : PyVal) : List LiveClassRecord :=
  db.map (fun x => if x.name == name then recUpdate x rid purl pass dur fsz else x)

/-- `notify_instructor_recording_available` (source lines 298-321),
called with the six-field dict fetched at lines 179-184.  The recipient
is `live_class.get("host", frappe.session.user)`; since the dict has no
`host` key this is always the session user.  If the insert raises, the
generic `except Exception` handler of the caller logs instead (its
message text is abstracted).  Email body content and the unused
`instructor_name` variable are not modelled. -/
def notifyInstructor (env : IngestEnv) (live_class : PyDict) : List Effect :=
  let for_user := (live_class.getD "host" (PyVal.str env.sessionUser)).pyStr
  let lesson := live_class.get "lesson"
  let lesson_title :=
    if lesson.truthy then
      let t := env.lessonTitle lesson.pyStr
      if t.truthy then t.pyStr else "this live class"
    else "this live class"
  let subject := "Recording available for " ++ lesson_title
  let docName := (live_class.get "name").pyStr
  if env.notifyFails then
    [Effect.logError
      ("Error processing Zoom recording metadata for " ++ docName ++ ": notification insert failed")
      zoomLogTitle]
  else
    [Effect.notifyInsert for_user subject docName, Effect.commit]

/-- Shallow embedding of `process_zoom_recording` (source lines 168-295).
Steps, in source order: resolve UUID; cloud-mode check; idempotence
check; video-file selection; `authenticate` (the token call happens
before the `meeting_id` check); recordings call with `raise_for_status`;
passcode/metadata extraction and duration computation; single
`set_value` plus `commit`; best-effort notification.  `stdout` prints
are not modelled.  Returns the database after the run and the effect
trace. -/
def process_zoom_recording (env : IngestEnv) (db : List LiveClassRecord)
    (meeting_uuid : String) (recording_files : List PyDict) :
    List LiveClassRecord × List Effect :=
  match findByUuid db meeting_uuid with
  | Option.none =>
    (db, [Effect.logError ("No LMS Live Class found for Zoom meeting UUID: " ++ meeting_uuid)
            zoomLogTitle])
  | some lc =>
    let live_class := fetchLiveClassDict lc
    if live_class.get "auto_recording" ≠ PyVal.str "Cloud" then
      (db, [Effect.logError ("Live Class " ++ lc.name ++ " not configured for cloud recording")
              zoomLogTitle])
    else if getRecordingProcessed db lc.name then
      (db, [])
    else
      match selectVideoFile recording_files with
      | Option.none =>
        (db, [Effect.logError ("No suitable video file found in recording for " ++ lc.name)
                zoomLogTitle])
      | some video_file =>
        let effsAuth := [Effect.tokenAuth lc.zoom_account]
        let meeting_id := live_class.get "meeting_id"
        if !meeting_id.truthy then
          (db, effsAuth ++
            [Effect.logError ("No meeting_id found for Live Class " ++ lc.name) zoomLogTitle])
        else
          let effsApi := effsAuth ++ [Effect.recordingsGet meeting_id.pyStr]
          match env.recordingsApi with
          | ApiOutcome.httpError errStr body =>
            (db, effsApi ++
              [Effect.logError
                ("Zoom API error fetching recording metadata for " ++ lc.name ++ ": " ++ errStr ++
                 "\nResponse: " ++ body) zoomLogTitle])
          | ApiOutcome.netError msg =>
            (db, effsApi ++
              [Effect.logError
                ("Error processing Zoom recording metadata for " ++ lc.name ++ ": " ++ msg)
                zoomLogTitle])
          | ApiOutcome.ok recording_data =>
            let recording_passcode := recording_data.getD "recording_play_passcode" (PyVal.str "")
            let recording_id := video_file.get "id"
            let play_url := video_file.get "play_url"
            let file_size := video_file.getD "file_size" (PyVal.int 0)
            match computeDuration video_file with
            | DurOutcome.exn msg =>
              (db, effsApi ++
                [Effect.logError
                  ("Error processing Zoom recording metadata for " ++ lc.name ++ ": " ++ msg)
                  zoomLogTitle])
            | DurOutcome.ok duration_seconds =>
              let db' := applyRecordingUpdate db lc.name recording_id play_url
                recording_passcode duration_seconds file_size
              let effsStore := effsApi ++ [Effect.setValue lc.name, Effect.commit]
              (db', effsStore ++ notifyInstructor env live_class)

/- ### The hourly attendance sweep (`update_attendance`, source lines 115-165)

`update_attendance` iterates over the classes returned by the
`uuid is set / attendees is not set` query and, for each, calls
`get_attendance` -> `create_attendance` -> `update_attendees_count`.
`get_attendance` calls `frappe.throw` on a non-200 participants
response, which raises; the loop has no exception handling, so the
raise propagates out of `update_attendance`.  The per-class token call
and the percent-encoding of the uuid are folded into the API outcome. -/

/-- The three columns fetched for each class by the sweep query. -/
structure SweepClass where
  name : String
  uuid : String
  zoom_account : String
  deriving DecidableEq, Repr

/-- Outcome of the participants request for one class: the participant
dicts on HTTP 200, or the response text on any other status. -/
inductive AttApiResult where
  | ok (participants : List PyDict)
  | fail (body : String)
  deriving DecidableEq, Repr

/-- One `LMS Live Class Participant` document inserted by
`create_attendance` (source lines 153-161). -/
structure ParticipantDoc where
  live_class : String
  member : PyVal
  joined_at : PyVal
  left_at : PyVal
  duration : PyVal
  deriving DecidableEq, Repr

/-- Accumulated writes of one sweep run: inserted participant docs and
the `attendees` counts set per class. -/
structure SweepState where
  created : List ParticipantDoc
  attendeesSet : List (String × Nat)
  deriving DecidableEq, Repr

/-- The `frappe.throw` message of `get_attendance` (source lines
142-147); the dict formatting of `live_class` is abstracted to its
name. -/
def attendanceFailMsg (lc : SweepClass) (body : String) : String :=
  "Failed to fetch attendance data from Zoom for class " ++ lc.name ++ ": " ++ body

/-- `create_attendance` (source lines 153-161). -/
def create_attendance (lc : SweepClass) (data : List PyDict) : List ParticipantDoc :=
  data.map (fun p =>
    ParticipantDoc.mk lc.name (p.get "user_email") (p.get "join_time")
      (p.get "leave_time") (p.get "duration"))

/-- The loop body of `update_attendance` (source lines 125-128).  The
`Except.error` case is the uncaught `frappe.throw` from
`get_attendance`: it aborts the remaining iterations. -/
def updateAttendanceGo (api : String → AttApiResult) :
    List SweepClass → SweepState → Except String SweepState
  | [], st => Except.ok st
  | lc :: rest, st =>
    match api lc.uuid with
    | AttApiResult.fail body => Except.error (attendanceFailMsg lc body)
    | AttApiResult.ok parts =>
      updateAttendanceGo api rest
        (SweepState.mk (st.created ++ create_attendance lc parts)
          (st.attendeesSet ++ [(lc.name, parts.length)]))

/-- `update_attendance` (source lines 115-128) over the queried class
list, with the participants-API behaviour supplied as `api`. -/
def update_attendance (api : String → AttApiResult)
    (past_live_classes : List SweepClass) : Except String SweepState :=
  updateAttendanceGo api past_live_classes (SweepState.mk [] [])

/- ### The daily reminder sweep (`send_live_class_reminder`, lines 75-112) -/

/-- The columns fetched for each class scheduled today. -/
structure ReminderClass where
  name : String
  batch_name : String
  title : String
  date : String
  time : String
  deriving DecidableEq, Repr

/-- One `LMS Batch Enrollment` row (`member`, `member_name`). -/
structure Enrollment where
  member : String
  member_name : String
  deriving DecidableEq, Repr

/-- One reminder mail as handed to `frappe.sendmail` (source lines
94-112); template args other than recipient/subject/batch are carried
by the subject and batch fields we keep. -/
structure MailMsg where
  recipient : String
  subject : String
  batch_name : String
  deriving DecidableEq, Repr

/-- `send_mail` (source lines 94-112), successful case. -/
def send_mail (lc : ReminderClass) (st : Enrollment) : MailMsg :=
  MailMsg.mk st.member ("Your class on " ++ lc.title ++ " is today") lc.batch_name

/-- Inner student loop of `send_live_class_reminder`; an exception from
`frappe.sendmail` (recipient for which `mailOk` is false) propagates. -/
def sendToStudents (mailOk : String → Bool) (lc : ReminderClass) :
    List Enrollment → List MailMsg → Except String (List MailMsg)
  | [], acc => Except.ok acc
  | st :: rest, acc =>
    if mailOk st.member then sendToStudents mailOk lc rest (acc ++ [send_mail lc st])
    else Except.error ("sendmail raised for recipient " ++ st.member)

/-- Outer class loop of `send_live_class_reminder` (source lines 84-91). -/
def reminderGo (studentsOf : String → List Enrollment) (mailOk : String → Bool) :
    List ReminderClass → List MailMsg → Except String (List MailMsg)
  | [], acc => Except.ok acc
  | lc :: rest, acc =>
    match sendToStudents mailOk lc (studentsOf lc.batch_name) acc with
    | Except.error e => Except.error e
    | Except.ok acc' => reminderGo studentsOf mailOk rest acc'

/-- `send_live_class_reminder` (source lines 75-91) over the classes
scheduled today, with enrollment lookup and sendmail behaviour
supplied as functions. -/
def send_live_class_reminder (studentsOf : String → List Enrollment)
    (mailOk : String → Bool) (classes : List ReminderClass) : Except String (List MailMsg) :=
  reminderGo studentsOf mailOk classes []

/- ### SHA-256, HMAC and the webhook challenge responder

The webhook handler `lms.lms.api.zoom_webhook` itself is not among the
source files (only its test scripts `test_zoom_webhook.py` and
`verify_zoom_response.py` are), so the challenge responder is modelled
from the specification.  SHA-256 and HMAC follow FIPS 180-4 / RFC 2104,
matching Python's `hashlib.sha256` / `hmac` used by the tests.  Bytes
and 32-bit words are `Nat`s kept below their bound by explicit masking. -/

/-- UTF-8 encoding of one character (Python `str.encode("utf-8")`). -/
def utf8Bytes (c : Char) : List Nat :=
  let n := c.toNat
  if n < 0x80 then [n]
  else if n < 0x800 then
    [0xC0 ||| (n >>> 6), 0x80 ||| (n &&& 0x3F)]
  else if n < 0x10000 then
    [0xE0 ||| (n >>> 12), 0x80 ||| ((n >>> 6) &&& 0x3F), 0x80 ||| (n &&& 0x3F)]
  else
    [0xF0 ||| (n >>> 18), 0x80 ||| ((n >>> 12) &&& 0x3F),
     0x80 ||| ((n >>> 6) &&& 0x3F), 0x80 ||| (n &&& 0x3F)]

/-- UTF-8 bytes of a string. -/
def strBytes (s : String) : List Nat :=
  s.data.flatMap utf8Bytes

/-- Rotate a 32-bit word right by `n` bits. -/
def rotr32 (n x : Nat) : Nat :=
  ((x >>> n) ||| (x <<< (32 - n))) &&& 0xFFFFFFFF

/-- The SHA-256 round constants (FIPS 180-4 section 4.2.2, here in
decimal). -/
def sha256K : List Nat :=
  [1116352408, 1899447441, 3049323471, 3921009573, 961987163, 1508970993,
   2453635748, 2870763221, 3624381080, 310598401, 607225278, 1426881987,
   1925078388, 2162078206, 2614888103, 3248222580, 3835390401, 4022224774,
   264347078, 604807628, 770255983, 1249150122, 1555081692, 1996064986,
   2554220882, 2821834349, 2952996808, 3210313671, 3336571891, 3584528711,
   113926993, 338241895, 666307205, 773529912, 1294757372, 1396182291,
   1695183700, 1986661051, 2177026350, 2456956037, 2730485921, 2820302411,
   3259730800, 3345764771, 3516065817, 3600352804, 4094571909, 275423344,
   430227734, 506948616, 659060556, 883997877, 958139571, 1322822218,
   1537002063, 1747873779, 1955562222, 2024104815, 2227730452, 2361852424,
   2428436474, 2756734187, 3204031479, 3329325298]

/-- The eight SHA-256 working/hash registers. -/
structure Sha256State where
  h0 : Nat
  h1 : Nat
  h2 : Nat
  h3 : Nat
  h4 : Nat
  h5 : Nat
  h6 : Nat
  h7 : Nat
  deriving DecidableEq, Repr

def sha256Init : Sha256State :=
  Sha256State.mk 1779033703 3144134277 1013904242 2773480762
    1359893119 2600822924 528734635 1541459225

/-- Big-endian 32-bit words from a list of bytes (groups of 4; the
fuel equals the expected word count and bounds the recursion). -/
def bytesToWords : Nat → List Nat → List Nat
  | 0, _ => []
  | fuel + 1, b0 :: b1 :: b2 :: b3 :: rest =>
    ((b0 <<< 24) + (b1 <<< 16) + (b2 <<< 8) + b3) :: bytesToWords fuel rest
  | _ + 1, _ => []

/-- Extend the 16 block words to the 64 schedule words (48 steps). -/
def extendSchedule : Nat → List Nat → List Nat
  | 0, w => w
  | fuel + 1, w =>
    let i := w.length
    let w15 := w.getD (i - 15) 0
    let w2 := w.getD (i - 2) 0
    let w16 := w.getD (i - 16) 0
    let w7 := w.getD (i - 7) 0
    let s0 := (rotr32 7 w15) ^^^ (rotr32 18 w15) ^^^ (w15 >>> 3)
    let s1 := (rotr32 17 w2) ^^^ (rotr32 19 w2) ^^^ (w2 >>> 10)
    extendSchedule fuel (w ++ [(w16 + s0 + w7 + s1) &&& 0xFFFFFFFF])

/-- One compression round. -/
def sha256Round (st : Sha256State) (kw : Nat × Nat) : Sha256State :=
  let bigS1 := (rotr32 6 st.h4) ^^^ (rotr32 11 st.h4) ^^^ (rotr32 25 st.h4)
  let ch := (st.h4 &&& st.h5) ^^^ ((st.h4 ^^^ 0xFFFFFFFF) &&& st.h6)
  let temp1 := (st.h7 + bigS1 + ch + kw.1 + kw.2) &&& 0xFFFFFFFF
  let bigS0 := (rotr32 2 st.h0) ^^^ (rotr32 13 st.h0) ^^^ (rotr32 22 st.h0)
  let maj := (st.h0 &&& st.h1) ^^^ (st.h0 &&& st.h2) ^^^ (st.h1 &&& st.h2)
  let temp2 := (bigS0 + maj) &&& 0xFFFFFFFF
  Sha256State.mk ((temp1 + temp2) &&& 0xFFFFFFFF) st.h0 st.h1 st.h2
    ((st.h3 + temp1) &&& 0xFFFFFFFF) st.h4 st.h5 st.h6

/-- Process one 64-byte block. -/
def sha256Compress (st : Sha256State) (block : List Nat) : Sha256State :=
  let w := extendSchedule 48 (bytesToWords 16 block)
  let f := (sha256K.zip w).foldl sha256Round st
  Sha256State.mk ((st.h0 + f.h0) &&& 0xFFFFFFFF) ((st.h1 + f.h1) &&& 0xFFFFFFFF)
    ((st.h2 + f.h2) &&& 0xFFFFFFFF) ((st.h3 + f.h3) &&& 0xFFFFFFFF)
    ((st.h4 + f.h4) &&& 0xFFFFFFFF) ((st.h5 + f.h5) &&& 0xFFFFFFFF)
    ((st.h6 + f.h6) &&& 0xFFFFFFFF) ((st.h7 + f.h7) &&& 0xFFFFFFFF)

/-- The 8-byte big-endian length field of the padding. -/
def lengthBytes64 (n : Nat) : List Nat :=
  [(n >>> 56) &&& 255, (n >>> 48) &&& 255, (n >>> 40) &&& 255, (n >>> 32) &&& 255,
   (n >>> 24) &&& 255, (n >>> 16) &&& 255, (n >>> 8) &&& 255, n &&& 255]

/-- SHA-256 padding: `0x80`, zeros to 56 mod 64, then the bit length. -/
def sha256Pad (msg : List Nat) : List Nat :=
  let l := msg.length
  msg ++ [0x80] ++ List.replicate ((119 - l % 64) % 64) 0 ++ lengthBytes64 (l * 8)

/-- Split into 64-byte blocks (fuel-bounded so that it reduces). -/
def chunks64Go : Nat → List Nat → List (List Nat)
  | 0, _ => []
  | _ + 1, [] => []
  | fuel + 1, l => l.take 64 :: chunks64Go fuel (l.drop 64)

def chunks64 (l : List Nat) : List (List Nat) :=
  chunks64Go l.length l

/-- The four big-endian bytes of one hash word. -/
def wordBytes (w : Nat) : List Nat :=
  [(w >>> 24) &&& 255, (w >>> 16) &&& 255, (w >>> 8) &&& 255, w &&& 255]

/-- The 32 digest bytes of a final state. -/
def digestBytes (st : Sha256State) : List Nat :=
  wordBytes st.h0 ++ wordBytes st.h1 ++ wordBytes st.h2 ++ wordBytes st.h3 ++
    wordBytes st.h4 ++ wordBytes st.h5 ++ wordBytes st.h6 ++ wordBytes st.h7

/-- SHA-256 digest (32 bytes) of a byte string. -/
def sha256Bytes (msg : List Nat) : List Nat :=
  digestBytes ((chunks64 (sha256Pad msg)).foldl sha256Compress sha256Init)

/-- HMAC-SHA256 (RFC 2104) over byte strings: 32 digest bytes. -/
def hmacSha256 (key msg : List Nat) : List Nat :=
  let k0 := if 64 < key.length then sha256Bytes key else key
  let kp := k0 ++ List.replicate (64 - k0.length) 0
  let ipadKey := kp.map (fun b => b ^^^ 0x36)
  let opadKey := kp.map (fun b => b ^^^ 0x5C)
  sha256Bytes (opadKey ++ sha256Bytes (ipadKey ++ msg))

/-- Lowercase hex digit of a nibble. -/
def hexDigit (n : Nat) : Char :=
  if n < 10 then Char.ofNat (48 + n) else Char.ofNat (87 + n)

/-- The two lowercase hex characters of one byte. -/
def byteToHex (b : Nat) : List Char :=
  [hexDigit (b / 16), hexDigit (b % 16)]

/-- Lowercase hex encoding of a byte string (Python `.hexdigest()`). -/
def hexOfBytes (bytes : List Nat) : String :=
  String.mk (bytes.flatMap byteToHex)

/-- `hmac.new(secret, token, hashlib.sha256).hexdigest()` on UTF-8
encoded strings, as computed by `test_zoom_webhook.py` lines 128-132. -/
def hmacSha256Hex (secret token : String) : String :=
  hexOfBytes (hmacSha256 (strBytes secret) (strBytes token))

/-- Modelled from the spec: the challenge responder of the webhook
handler `lms.lms.api.zoom_webhook` (the handler module is not among
the provided source files; only its test scripts are).  Spec 4.2: on
`endpoint.url_validation`, respond with a bare JSON object whose only
two top-level fields are `plainToken`, echoed verbatim, and
`encryptedToken`, the lowercase hex encoding of
HMAC-SHA256(secret, plainToken).  The JSON object is represented by
its ordered field list. -/
def zoomWebhookValidationResponse (secret plainToken : String) : List (String × String) :=
  [("plainToken", plainToken), ("encryptedToken", hmacSha256Hex secret plainToken)]

/-- Field lookup in the represented JSON object. -/
def jsonField (obj : List (String × String)) (k : String) : Option String :=
  (obj.find? (fun p => p.1 == k)).map Prod.snd

/- ### Helper lemmas -/

theorem fetch_get_auto (r : LiveClassRecord) :
    (fetchLiveClassDict r).get "auto_recording" = PyVal.str r.auto_recording := rfl

theorem fetch_get_meeting (r : LiveClassRecord) :
    (fetchLiveClassDict r).get "meeting_id" = r.meeting_id := rfl

theorem fetch_get_name (r : LiveClassRecord) :
    (fetchLiveClassDict r).get "name" = PyVal.str r.name := rfl

theorem fetch_getD_host (r : LiveClassRecord) (v : PyVal) :
    (fetchLiveClassDict r).getD "host" v = v := rfl

/-- With pairwise distinct names, looking a member record up by its own
name finds exactly it. -/
theorem recordOf_of_mem_nodup {db : List LiveClassRecord} {r : LiveClassRecord}
    (hmem : r ∈ db) (hnodup : (db.map LiveClassRecord.name).Nodup) :
    recordOf db r.name = some r := by
  induction db with
  | nil => cases hmem
  | cons a tl ih =>
    rcases List.mem_cons.mp hmem with rfl | htl
    · simp [recordOf, List.find?]
    · have hnot : a.name ∉ tl.map LiveClassRecord.name :=
        (List.nodup_cons.mp hnodup).1
      have hne : (a.name == r.name) = false := by
        refine beq_eq_false_iff_ne.mpr ?_
        intro h
        exact hnot (h ▸ List.mem_map_of_mem LiveClassRecord.name htl)
      have := ih htl (List.nodup_cons.mp hnodup).2
      simpa [recordOf, List.find?, hne] using this

/-- A record returned by the uuid lookup is a member of the database. -/
theorem mem_of_findByUuid {db : List LiveClassRecord} {u : String} {r : LiveClassRecord}
    (h : findByUuid db u = some r) : r ∈ db :=
  List.mem_of_find?_eq_some h

/-- `recUpdate` does not change the record name. -/
theorem recUpdate_name (x : LiveClassRecord) (rid purl pass : PyVal) (dur : Int) (fsz : PyVal) :
    (recUpdate x rid purl pass dur fsz).name = x.name := rfl

/-- Looking up by name commutes with the recording update. -/
theorem recordOf_applyRecordingUpdate (db : List LiveClassRecord) (nm tgt : String)
    (rid purl pass : PyVal) (dur : Int) (fsz : PyVal) :
    recordOf (applyRecordingUpdate db tgt rid purl pass dur fsz) nm =
      (recordOf db nm).map
        (fun x => if x.name == tgt then recUpdate x rid purl pass dur fsz else x) := by
  unfold recordOf applyRecordingUpdate
  rw [List.find?_map]
  have hp : ((fun r : LiveClassRecord => r.name == nm) ∘
      fun x => if x.name == tgt then recUpdate x rid purl pass dur fsz else x) =
      (fun r : LiveClassRecord => r.name == nm) := by
    funext x
    by_cases h : (x.name == tgt) = true
    · simp [Function.comp, h, recUpdate]
    · simp [Function.comp, h]
  rw [hp]

/-- Path lemma: a found, cloud-mode, already-processed record makes the
run return immediately with no effects at all (source line 203). -/
theorem process_processed_path (env : IngestEnv) (db : List LiveClassRecord)
    (uuid : String) (files : List PyDict) (lc : LiveClassRecord)
    (hfind : findByUuid db uuid = some lc)
    (hmode : lc.auto_recording = "Cloud")
    (hproc : getRecordingProcessed db lc.name = true) :
    process_zoom_recording env db uuid files = (db, []) := by
  simp [process_zoom_recording, hfind, fetchLiveClassDict, PyDict.get, PyDict.getD,
    hmode, hproc]

/-- Path lemma: cloud-mode, unprocessed, eligible video, truthy meeting
id, but the recordings call fails (`HTTPError` from `raise_for_status`,
source lines 286-290).  The exception is caught and logged; the
database is returned unchanged. -/
theorem process_httpError_path (env : IngestEnv) (db : List LiveClassRecord)
    (uuid : String) (files : List PyDict) (lc : LiveClassRecord) (vf : PyDict)
    (errStr body : String)
    (hfind : findByUuid db uuid = some lc)
    (hmode : lc.auto_recording = "Cloud")
    (hproc : getRecordingProcessed db lc.name = false)
    (hsel : selectVideoFile files = some vf)
    (hmid : lc.meeting_id.truthy = true)
    (hapi : env.recordingsApi = ApiOutcome.httpError errStr body) :
    process_zoom_recording env db uuid files =
      (db, [Effect.tokenAuth lc.zoom_account,
            Effect.recordingsGet lc.meeting_id.pyStr,
            Effect.logError
              ("Zoom API error fetching recording metadata for " ++ lc.name ++ ": " ++ errStr ++
               "\nResponse: " ++ body) zoomLogTitle]) := by
  simp [process_zoom_recording, hfind, fetchLiveClassDict, PyDict.get, PyDict.getD,
    hmode, hproc, hsel, hmid, hapi]

/-- Path lemma: as above but the recordings call raises some other
requests exception (caught by the generic handler, lines 291-295). -/
theorem process_netError_path (env : IngestEnv) (db : List LiveClassRecord)
    (uuid : String) (files : List PyDict) (lc : LiveClassRecord) (vf : PyDict)
    (msg : String)
    (hfind : findByUuid db uuid = some lc)
    (hmode : lc.auto_recording = "Cloud")
    (hproc : getRecordingProcessed db lc.name = false)
    (hsel : selectVideoFile files = some vf)
    (hmid : lc.meeting_id.truthy = true)
    (hapi : env.recordingsApi = ApiOutcome.netError msg) :
    process_zoom_recording env db uuid files =
      (db, [Effect.tokenAuth lc.zoom_account,
            Effect.recordingsGet lc.meeting_id.pyStr,
            Effect.logError
              ("Error processing Zoom recording metadata for " ++ lc.name ++ ": " ++ msg)
              zoomLogTitle]) := by
  simp [process_zoom_recording, hfind, fetchLiveClassDict, PyDict.get, PyDict.getD,
    hmode, hproc, hsel, hmid, hapi]

/-- Path lemma: cloud-mode, unprocessed, but no eligible video file
descriptor: log and stop without touching the record (lines 217-222). -/
theorem process_noVideo_path (env : IngestEnv) (db : List LiveClassRecord)
    (uuid : String) (files : List PyDict) (lc : LiveClassRecord)
    (hfind : findByUuid db uuid = some lc)
    (hmode : lc.auto_recording = "Cloud")
    (hproc : getRecordingProcessed db lc.name = false)
    (hsel : selectVideoFile files = Option.none) :
    process_zoom_recording env db uuid files =
      (db, [Effect.logError ("No suitable video file found in recording for " ++ lc.name)
              zoomLogTitle]) := by
  simp [process_zoom_recording, hfind, fetchLiveClassDict, PyDict.get, PyDict.getD,
    hmode, hproc, hsel]

/-- Path lemma: the fully successful run (through source line 280): the
six-field update is applied to the record, committed, and the
notification step runs; the effect trace is fully determined. -/
theorem process_success_path (env : IngestEnv) (db : List LiveClassRecord)
    (uuid : String) (files : List PyDict) (lc : LiveClassRecord) (vf : PyDict)
    (recData : PyDict) (dur : Int)
    (hfind : findByUuid db uuid = some lc)
    (hmode : lc.auto_recording = "Cloud")
    (hproc : getRecordingProcessed db lc.name = false)
    (hsel : selectVideoFile files = some vf)
    (hmid : lc.meeting_id.truthy = true)
    (hapi : env.recordingsApi = ApiOutcome.ok recData)
    (hdur : computeDuration vf = DurOutcome.ok dur) :
    process_zoom_recording env db uuid files =
      (applyRecordingUpdate db lc.name (vf.get "id") (vf.get "play_url")
         (recData.getD "recording_play_passcode" (PyVal.str "")) dur
         (vf.getD "file_size" (PyVal.int 0)),
       [Effect.tokenAuth lc.zoom_account,
        Effect.recordingsGet lc.meeting_id.pyStr,
        Effect.setValue lc.name, Effect.commit] ++
         notifyInstructor env (fetchLiveClassDict lc)) := by
  simp [process_zoom_recording, hfind, hmode, hproc, hsel, hmid, hapi, hdur,
    fetch_get_auto, fetch_get_meeting]

/-- Path lemma: a found record not configured for cloud recording makes
the run log and stop (source lines 194-199). -/
theorem process_notCloud_path (env : IngestEnv) (db : List LiveClassRecord)
    (uuid : String) (files : List PyDict) (lc : LiveClassRecord)
    (hfind : findByUuid db uuid = some lc)
    (hmode : lc.auto_recording ≠ "Cloud") :
    process_zoom_recording env db uuid files =
      (db, [Effect.logError ("Live Class " ++ lc.name ++ " not configured for cloud recording")
              zoomLogTitle]) := by
  simp [process_zoom_recording, hfind, fetch_get_auto, hmode]

/- ### The claims -/

/-- C1: for every live-class record whose `recording_processed` flag is
already true, a run of `process_zoom_recording` with that record's
meeting UUID performs no mutation of any record (the database is
returned unchanged and the trace holds no write) and makes no outbound
provider call (neither the token authentication of `authenticate` nor
the recordings request); so `processed` transitions false to true at
most once per record and a true flag means the record is treated as
already handled. -/
theorem processed_record_pure_run
    (env : IngestEnv) (db : List LiveClassRecord) (uuid : String) (files : List PyDict)
    (r : LiveClassRecord)
    (hnodup : (db.map LiveClassRecord.name).Nodup)
    (hfind : findByUuid db uuid = some r)
    (hproc : r.recording_processed = true) :
    (process_zoom_recording env db uuid files).1 = db ∧
    ((process_zoom_recording env db uuid files).2.all (fun e => !e.isProviderCall)) = true ∧
    ((process_zoom_recording env db uuid files).2.all (fun e => !e.isDbWrite)) = true := by
  by_cases hmode : r.auto_recording = "Cloud"
  · have hp : getRecordingProcessed db r.name = true := by
      rw [getRecordingProcessed, recordOf_of_mem_nodup (mem_of_findByUuid hfind) hnodup]
      exact hproc
    rw [process_processed_path env db uuid files r hfind hmode hp]
    exact ⟨rfl, rfl, rfl⟩
  · rw [process_notCloud_path env db uuid files r hfind hmode]
    exact ⟨rfl, rfl, rfl⟩

def sampleProcessedRecord : LiveClassRecord :=
  LiveClassRecord.mk "LC-1" "uuid-1" "Title" "2026-01-05" "10:00" "Batch-1" "Cloud" "acct"
    PyVal.none (PyVal.str "987654") (PyVal.str "owner@example.com") PyVal.none
    true (PyVal.str "old-rec") (PyVal.str "https://old") (PyVal.str "old-pass")
    (PyVal.int 100) (PyVal.int 5)

def sampleEnvOk : IngestEnv :=
  IngestEnv.mk (ApiOutcome.ok [("recording_play_passcode", PyVal.str "pw")]) false
    "Administrator" (fun _ => PyVal.none)

def sampleVideoDict : PyDict :=
  [("file_type", PyVal.str "MP4"), ("recording_type", PyVal.str "speaker_view"),
   ("id", PyVal.str "rec-1"), ("play_url", PyVal.str "https://zoom.example/play"),
   ("file_size", PyVal.int 1024),
   ("recording_start", PyVal.str "2024-01-01T10:00:00Z"),
   ("recording_end", PyVal.str "2024-01-01T10:45:30Z")]

theorem processed_record_pure_run_witness :
    (process_zoom_recording sampleEnvOk [sampleProcessedRecord] "uuid-1" [sampleVideoDict]).1 =
      [sampleProcessedRecord] ∧
    ((process_zoom_recording sampleEnvOk [sampleProcessedRecord] "uuid-1"
        [sampleVideoDict]).2.all (fun e => !e.isProviderCall)) = true ∧
    ((process_zoom_recording sampleEnvOk [sampleProcessedRecord] "uuid-1"
        [sampleVideoDict]).2.all (fun e => !e.isDbWrite)) = true :=
  processed_record_pure_run sampleEnvOk [sampleProcessedRecord] "uuid-1" [sampleVideoDict]
    sampleProcessedRecord (by decide) (by decide) (by decide)

/-- C2: on a previously unprocessed cloud-mode record with an eligible
video file and a truthy meeting identifier, a failing recordings call
(non-2xx via `raise_for_status`, or a network error) is caught and
logged, and the live-class record (indeed the whole database) is left
unmodified: no `set_value`, no commit, no notification, so
`recording_processed` stays false and a redelivery can still succeed. -/
theorem provider_failure_leaves_record_unmodified
    (env : IngestEnv) (db : List LiveClassRecord) (uuid : String) (files : List PyDict)
    (r : LiveClassRecord) (vf : PyDict)
    (hnodup : (db.map LiveClassRecord.name).Nodup)
    (hfind : findByUuid db uuid = some r)
    (hmode : r.auto_recording = "Cloud")
    (hproc : r.recording_processed = false)
    (hsel : selectVideoFile files = some vf)
    (hmid : r.meeting_id.truthy = true)
    (hfail : (∃ errStr body, env.recordingsApi = ApiOutcome.httpError errStr body) ∨
             (∃ msg, env.recordingsApi = ApiOutcome.netError msg)) :
    (process_zoom_recording env db uuid files).1 = db ∧
    (∃ m, (process_zoom_recording env db uuid files).2 =
      [Effect.tokenAuth r.zoom_account, Effect.recordingsGet r.meeting_id.pyStr,
       Effect.logError m zoomLogTitle]) ∧
    ((process_zoom_recording env db uuid files).2.all (fun e => !e.isDbWrite)) = true := by
  have hp : getRecordingProcessed db r.name = false := by
    rw [getRecordingProcessed, recordOf_of_mem_nodup (mem_of_findByUuid hfind) hnodup]
    exact hproc
  rcases hfail with ⟨errStr, body, hapi⟩ | ⟨msg, hapi⟩
  · rw [process_httpError_path env db uuid files r vf errStr body hfind hmode hp hsel hmid hapi]
    exact ⟨rfl, ⟨_, rfl⟩, rfl⟩
  · rw [process_netError_path env db uuid files r vf msg hfind hmode hp hsel hmid hapi]
    exact ⟨rfl, ⟨_, rfl⟩, rfl⟩

def sampleUnprocessedRecord : LiveClassRecord :=
  LiveClassRecord.mk "LC-2" "uuid-2" "Title" "2026-01-05" "10:00" "Batch-1" "Cloud" "acct"
    PyVal.none (PyVal.str "987654") (PyVal.str "owner@example.com") PyVal.none
    false PyVal.none PyVal.none PyVal.none PyVal.none PyVal.none

def sampleEnvHttpFail : IngestEnv :=
  IngestEnv.mk (ApiOutcome.httpError "404 Client Error" "meeting not found") false
    "Administrator" (fun _ => PyVal.none)

theorem provider_failure_leaves_record_unmodified_witness :
    (process_zoom_recording sampleEnvHttpFail [sampleUnprocessedRecord] "uuid-2"
        [sampleVideoDict]).1 = [sampleUnprocessedRecord] ∧
    (∃ m, (process_zoom_recording sampleEnvHttpFail [sampleUnprocessedRecord] "uuid-2"
        [sampleVideoDict]).2 =
      [Effect.tokenAuth sampleUnprocessedRecord.zoom_account,
       Effect.recordingsGet sampleUnprocessedRecord.meeting_id.pyStr,
       Effect.logError m zoomLogTitle]) ∧
    ((process_zoom_recording sampleEnvHttpFail [sampleUnprocessedRecord] "uuid-2"
        [sampleVideoDict]).2.all (fun e => !e.isDbWrite)) = true :=
  provider_failure_leaves_record_unmodified sampleEnvHttpFail [sampleUnprocessedRecord]
    "uuid-2" [sampleVideoDict] sampleUnprocessedRecord sampleVideoDict
    (by decide) (by decide) (by decide) (by decide) (by decide) (by decide)
    (Or.inl ⟨"404 Client Error", "meeting not found", rfl⟩)

/-- C4: `process_zoom_recording` selects the first descriptor in list
order whose `file_type` is `"MP4"` and whose `recording_type` is in the
fixed allow-list (shared_screen_with_speaker_view,
shared_screen_with_gallery_view, speaker_view, gallery_view): any
selected descriptor satisfies both tests and every earlier descriptor
fails the test; and when no descriptor matches, the run logs and stops
without mutating the record. -/
theorem video_selection_first_match_or_log
    (files : List PyDict) (vf : PyDict)
    (env : IngestEnv) (db : List LiveClassRecord) (uuid : String)
    (files2 : List PyDict) (r : LiveClassRecord) :
    (selectVideoFile files = some vf →
      vf.get "file_type" = PyVal.str "MP4" ∧
      (allowedRecordingTypes.any
        (fun t => decide (vf.get "recording_type" = PyVal.str t))) = true ∧
      allowedRecordingTypes =
        ["shared_screen_with_speaker_view", "shared_screen_with_gallery_view",
         "speaker_view", "gallery_view"] ∧
      ∃ pre post, files = pre ++ vf :: post ∧ ∀ f ∈ pre, isMainVideo f = false) ∧
    (findByUuid db uuid = some r → r.auto_recording = "Cloud" →
      getRecordingProcessed db r.name = false →
      selectVideoFile files2 = Option.none →
      process_zoom_recording env db uuid files2 =
        (db, [Effect.logError ("No suitable video file found in recording for " ++ r.name)
                zoomLogTitle])) := by
  constructor
  · intro hsel
    have h := List.find?_eq_some.mp hsel
    have hmain : isMainVideo vf = true := h.1
    rcases h.2 with ⟨pre, post, heq, hpre⟩
    rw [isMainVideo, Bool.and_eq_true] at hmain
    refine ⟨of_decide_eq_true hmain.1, hmain.2, rfl, pre, post, heq, ?_⟩
    intro f hf
    have := hpre f hf
    simpa using this
  · intro hfind hmode hproc hsel
    exact process_noVideo_path env db uuid files2 r hfind hmode hproc hsel

def sampleNonVideoDict : PyDict :=
  [("file_type", PyVal.str "M4A"), ("recording_type", PyVal.str "audio_only"),
   ("id", PyVal.str "rec-0")]

theorem video_selection_first_match_or_log_witness :
    (sampleVideoDict.get "file_type" = PyVal.str "MP4" ∧
      (allowedRecordingTypes.any
        (fun t => decide (sampleVideoDict.get "recording_type" = PyVal.str t))) = true ∧
      allowedRecordingTypes =
        ["shared_screen_with_speaker_view", "shared_screen_with_gallery_view",
         "speaker_view", "gallery_view"] ∧
      ∃ pre post, [sampleNonVideoDict, sampleVideoDict] = pre ++ sampleVideoDict :: post ∧
        ∀ f ∈ pre, isMainVideo f = false) ∧
    process_zoom_recording sampleEnvOk [sampleUnprocessedRecord] "uuid-2"
        [sampleNonVideoDict] =
      ([sampleUnprocessedRecord],
       [Effect.logError
          ("No suitable video file found in recording for " ++ sampleUnprocessedRecord.name)
          zoomLogTitle]) :=
  ⟨(video_selection_first_match_or_log [sampleNonVideoDict, sampleVideoDict] sampleVideoDict
      sampleEnvOk [sampleUnprocessedRecord] "uuid-2" [sampleNonVideoDict]
      sampleUnprocessedRecord).1 (by decide),
   (video_selection_first_match_or_log [sampleNonVideoDict, sampleVideoDict] sampleVideoDict
      sampleEnvOk [sampleUnprocessedRecord] "uuid-2" [sampleNonVideoDict]
      sampleUnprocessedRecord).2 (by decide) (by decide) (by decide) (by decide)⟩

/-- A string that parses as an ISO timestamp (after `Z` replacement) is
nonempty, hence truthy. -/
theorem isEmpty_false_of_parseIso {s : String} {d : PyDateTime}
    (h : parseIso (replaceZ s) = some d) : s.isEmpty = false := by
  cases he : s.isEmpty
  · rfl
  · exfalso
    rw [(String.isEmpty_iff s).mp he] at h
    simp [replaceZ, parseIso] at h

/-- The duration computation on a descriptor whose two timestamps parse
as aware datetimes: the whole-second difference end minus start. -/
theorem computeDuration_of_parsed (vf : PyDict) (sa sb : String) (ta tb : Int)
    (hs : vf.get "recording_start" = PyVal.str sa)
    (he : vf.get "recording_end" = PyVal.str sb)
    (hpa : parseIso (replaceZ sa) = some (PyDateTime.mk ta true))
    (hpb : parseIso (replaceZ sb) = some (PyDateTime.mk tb true)) :
    computeDuration vf = DurOutcome.ok (tb - ta) := by
  have hsa := isEmpty_false_of_parseIso hpa
  have hsb := isEmpty_false_of_parseIso hpb
  simp [computeDuration, hs, he, PyVal.truthy, hsa, hsb, hpa, hpb]

/-- Looking the target record up after the update yields its updated
version. -/
theorem recordOf_after_update {db : List LiveClassRecord} {r : LiveClassRecord}
    (hmem : r ∈ db) (hnodup : (db.map LiveClassRecord.name).Nodup)
    (rid purl pass : PyVal) (dur : Int) (fsz : PyVal) :
    recordOf (applyRecordingUpdate db r.name rid purl pass dur fsz) r.name =
      some (recUpdate r rid purl pass dur fsz) := by
  rw [recordOf_applyRecordingUpdate, recordOf_of_mem_nodup hmem hnodup]
  simp

/-- C5: for a selected descriptor whose `recording_start` and
`recording_end` are ISO-8601 timestamps with zone designator (parsing
as aware datetimes at `ta` and `tb` seconds), the computed and stored
recording duration is exactly `tb - ta`, the end-minus-start difference
in whole seconds; the witness instantiates the spec's example
(10:00:00Z to 10:45:30Z giving 2730). -/
theorem stored_duration_is_end_minus_start
    (env : IngestEnv) (db : List LiveClassRecord) (uuid : String) (files : List PyDict)
    (r : LiveClassRecord) (vf : PyDict) (recData : PyDict)
    (sa sb : String) (ta tb : Int)
    (hnodup : (db.map LiveClassRecord.name).Nodup)
    (hfind : findByUuid db uuid = some r)
    (hmode : r.auto_recording = "Cloud")
    (hproc : r.recording_processed = false)
    (hsel : selectVideoFile files = some vf)
    (hmid : r.meeting_id.truthy = true)
    (hapi : env.recordingsApi = ApiOutcome.ok recData)
    (hs : vf.get "recording_start" = PyVal.str sa)
    (he : vf.get "recording_end" = PyVal.str sb)
    (hpa : parseIso (replaceZ sa) = some (PyDateTime.mk ta true))
    (hpb : parseIso (replaceZ sb) = some (PyDateTime.mk tb true)) :
    computeDuration vf = DurOutcome.ok (tb - ta) ∧
    recordOf (process_zoom_recording env db uuid files).1 r.name =
      some (recUpdate r (vf.get "id") (vf.get "play_url")
        (recData.getD "recording_play_passcode" (PyVal.str "")) (tb - ta)
        (vf.getD "file_size" (PyVal.int 0))) := by
  have hp : getRecordingProcessed db r.name = false := by
    rw [getRecordingProcessed, recordOf_of_mem_nodup (mem_of_findByUuid hfind) hnodup]
    exact hproc
  have hdur := computeDuration_of_parsed vf sa sb ta tb hs he hpa hpb
  refine ⟨hdur, ?_⟩
  rw [process_success_path env db uuid files r vf recData (tb - ta) hfind hmode hp hsel hmid
    hapi hdur]
  exact recordOf_after_update (mem_of_findByUuid hfind) hnodup _ _ _ _ _

theorem stored_duration_is_end_minus_start_witness :
    computeDuration sampleVideoDict = DurOutcome.ok 2730 ∧
    recordOf (process_zoom_recording sampleEnvOk [sampleUnprocessedRecord] "uuid-2"
        [sampleVideoDict]).1 "LC-2" =
      some (recUpdate sampleUnprocessedRecord (PyVal.str "rec-1")
        (PyVal.str "https://zoom.example/play") (PyVal.str "pw") 2730 (PyVal.int 1024)) := by
  have h := stored_duration_is_end_minus_start sampleEnvOk [sampleUnprocessedRecord] "uuid-2"
    [sampleVideoDict] sampleUnprocessedRecord sampleVideoDict
    [("recording_play_passcode", PyVal.str "pw")]
    "2024-01-01T10:00:00Z" "2024-01-01T10:45:30Z" 1704103200 1704105930
    (by decide) (by decide) (by decide) (by decide) (by decide) (by decide) rfl
    (by decide) (by decide) (by decide) (by decide)
  constructor
  · have h1 := h.1
    norm_num at h1 ⊢
    exact h1
  · have h2 := h.2
    norm_num at h2
    convert h2 using 2

/-- The notification step never performs the recording `set_value`. -/
theorem notify_no_setValue (env : IngestEnv) (d : PyDict) :
    (notifyInstructor env d).filter Effect.isSetValue = [] := by
  by_cases h : env.notifyFails <;> simp [notifyInstructor, h, Effect.isSetValue]

/-- C6: a successful ingestion run persists the six recording fields
(`recording_processed := true`, id, url, passcode, duration, file size)
in one single `set_value` (the trace holds exactly one), every other
field of every record is untouched, and records with a different name
are returned verbatim. -/
theorem atomic_update_and_frame
    (env : IngestEnv) (db : List LiveClassRecord) (uuid : String) (files : List PyDict)
    (r : LiveClassRecord) (vf : PyDict) (recData : PyDict) (dur : Int)
    (hnodup : (db.map LiveClassRecord.name).Nodup)
    (hfind : findByUuid db uuid = some r)
    (hmode : r.auto_recording = "Cloud")
    (hproc : r.recording_processed = false)
    (hsel : selectVideoFile files = some vf)
    (hmid : r.meeting_id.truthy = true)
    (hapi : env.recordingsApi = ApiOutcome.ok recData)
    (hdur : computeDuration vf = DurOutcome.ok dur) :
    (process_zoom_recording env db uuid files).1 =
      applyRecordingUpdate db r.name (vf.get "id") (vf.get "play_url")
        (recData.getD "recording_play_passcode" (PyVal.str "")) dur
        (vf.getD "file_size" (PyVal.int 0)) ∧
    ((process_zoom_recording env db uuid files).2.filter Effect.isSetValue) =
      [Effect.setValue r.name] ∧
    (∀ x : LiveClassRecord, ∀ rid purl pass : PyVal, ∀ d : Int, ∀ fsz : PyVal,
      (recUpdate x rid purl pass d fsz).recording_processed = true ∧
      (recUpdate x rid purl pass d fsz).zoom_recording_id = rid ∧
      (recUpdate x rid purl pass d fsz).recording_url = purl ∧
      (recUpdate x rid purl pass d fsz).recording_passcode = pass ∧
      (recUpdate x rid purl pass d fsz).recording_duration = PyVal.int d ∧
      (recUpdate x rid purl pass d fsz).recording_file_size = fsz ∧
      (recUpdate x rid purl pass d fsz).name = x.name ∧
      (recUpdate x rid purl pass d fsz).uuid = x.uuid ∧
      (recUpdate x rid purl pass d fsz).title = x.title ∧
      (recUpdate x rid purl pass d fsz).date = x.date ∧
      (recUpdate x rid purl pass d fsz).time = x.time ∧
      (recUpdate x rid purl pass d fsz).batch_name = x.batch_name ∧
      (recUpdate x rid purl pass d fsz).auto_recording = x.auto_recording ∧
      (recUpdate x rid purl pass d fsz).zoom_account = x.zoom_account ∧
      (recUpdate x rid purl pass d fsz).lesson = x.lesson ∧
      (recUpdate x rid purl pass d fsz).meeting_id = x.meeting_id ∧
      (recUpdate x rid purl pass d fsz).host = x.host ∧
      (recUpdate x rid purl pass d fsz).attendees = x.attendees) ∧
    (∀ x ∈ db, x.name ≠ r.name → x ∈ (process_zoom_recording env db uuid files).1) := by
  have hp : getRecordingProcessed db r.name = false := by
    rw [getRecordingProcessed, recordOf_of_mem_nodup (mem_of_findByUuid hfind) hnodup]
    exact hproc
  have hrun := process_success_path env db uuid files r vf recData dur hfind hmode hp hsel
    hmid hapi hdur
  refine ⟨by rw [hrun], ?_, ?_, ?_⟩
  · rw [hrun]
    simp [List.filter_append, notify_no_setValue, Effect.isSetValue]
  · intro x rid purl pass d fsz
    exact ⟨rfl, rfl, rfl, rfl, rfl, rfl, rfl, rfl, rfl, rfl, rfl, rfl, rfl, rfl, rfl, rfl,
      rfl, rfl⟩
  · intro x hx hne
    rw [hrun]
    have hif : (if x.name == r.name then
        recUpdate x (vf.get "id") (vf.get "play_url")
          (recData.getD "recording_play_passcode" (PyVal.str "")) dur
          (vf.getD "file_size" (PyVal.int 0)) else x) = x := by
      rw [if_neg]
      simpa using hne
    have hmem2 := List.mem_map_of_mem (fun x : LiveClassRecord =>
      if x.name == r.name then
        recUpdate x (vf.get "id") (vf.get "play_url")
          (recData.getD "recording_play_passcode" (PyVal.str "")) dur
          (vf.getD "file_size" (PyVal.int 0)) else x) hx
    simpa [applyRecordingUpdate, hif, hne] using hmem2

theorem atomic_update_and_frame_witness :
    (process_zoom_recording sampleEnvOk [sampleUnprocessedRecord] "uuid-2"
        [sampleVideoDict]).1 =
      applyRecordingUpdate [sampleUnprocessedRecord] sampleUnprocessedRecord.name
        (sampleVideoDict.get "id") (sampleVideoDict.get "play_url")
        (PyDict.getD [("recording_play_passcode", PyVal.str "pw")]
          "recording_play_passcode" (PyVal.str "")) 2730
        (sampleVideoDict.getD "file_size" (PyVal.int 0)) ∧
    ((process_zoom_recording sampleEnvOk [sampleUnprocessedRecord] "uuid-2"
        [sampleVideoDict]).2.filter Effect.isSetValue) =
      [Effect.setValue sampleUnprocessedRecord.name] ∧
    (recUpdate sampleUnprocessedRecord (PyVal.str "rec-1") (PyVal.str "p") (PyVal.str "w")
      7 (PyVal.int 9)).host = sampleUnprocessedRecord.host := by
  have h := atomic_update_and_frame sampleEnvOk [sampleUnprocessedRecord] "uuid-2"
    [sampleVideoDict] sampleUnprocessedRecord sampleVideoDict
    [("recording_play_passcode", PyVal.str "pw")] 2730
    (by decide) (by decide) (by decide) (by decide) (by decide) (by decide) rfl (by decide)
  exact ⟨h.1, h.2.1, (h.2.2.1 sampleUnprocessedRecord (PyVal.str "rec-1") (PyVal.str "p")
    (PyVal.str "w") 7 (PyVal.int 9)).2.2.2.2.2.2.2.2.2.2.2.2.2.2.2.2.1⟩

def sampleEnvNotifyFail : IngestEnv :=
  IngestEnv.mk (ApiOutcome.ok [("recording_play_passcode", PyVal.str "pw")]) true
    "Administrator" (fun _ => PyVal.none)

/-- C7: once the metadata persist (the `set_value` and commit of step 7)
has happened, a failure of the best-effort owner notification does not
roll it back: the record remains `recording_processed = true` with the
stored metadata intact, and the failure shows up only as one logged
error after the commit. -/
theorem notify_failure_does_not_roll_back
    (env : IngestEnv) (db : List LiveClassRecord) (uuid : String) (files : List PyDict)
    (r : LiveClassRecord) (vf : PyDict) (recData : PyDict) (dur : Int)
    (hnodup : (db.map LiveClassRecord.name).Nodup)
    (hfind : findByUuid db uuid = some r)
    (hmode : r.auto_recording = "Cloud")
    (hproc : r.recording_processed = false)
    (hsel : selectVideoFile files = some vf)
    (hmid : r.meeting_id.truthy = true)
    (hapi : env.recordingsApi = ApiOutcome.ok recData)
    (hdur : computeDuration vf = DurOutcome.ok dur)
    (hnf : env.notifyFails = true) :
    recordOf (process_zoom_recording env db uuid files).1 r.name =
      some (recUpdate r (vf.get "id") (vf.get "play_url")
        (recData.getD "recording_play_passcode" (PyVal.str "")) dur
        (vf.getD "file_size" (PyVal.int 0))) ∧
    getRecordingProcessed (process_zoom_recording env db uuid files).1 r.name = true ∧
    (process_zoom_recording env db uuid files).2 =
      [Effect.tokenAuth r.zoom_account, Effect.recordingsGet r.meeting_id.pyStr,
       Effect.setValue r.name, Effect.commit,
       Effect.logError ("Error processing Zoom recording metadata for " ++ r.name ++
         ": notification insert failed") zoomLogTitle] := by
  have hp : getRecordingProcessed db r.name = false := by
    rw [getRecordingProcessed, recordOf_of_mem_nodup (mem_of_findByUuid hfind) hnodup]
    exact hproc
  have hrun := process_success_path env db uuid files r vf recData dur hfind hmode hp hsel
    hmid hapi hdur
  have hrec : recordOf (process_zoom_recording env db uuid files).1 r.name =
      some (recUpdate r (vf.get "id") (vf.get "play_url")
        (recData.getD "recording_play_passcode" (PyVal.str "")) dur
        (vf.getD "file_size" (PyVal.int 0))) := by
    rw [hrun]
    exact recordOf_after_update (mem_of_findByUuid hfind) hnodup _ _ _ _ _
  refine ⟨hrec, ?_, ?_⟩
  · rw [getRecordingProcessed, hrec]
    rfl
  · rw [hrun]
    simp [notifyInstructor, hnf, fetchLiveClassDict, PyDict.get, PyDict.getD, PyVal.pyStr]

theorem notify_failure_does_not_roll_back_witness :
    recordOf (process_zoom_recording sampleEnvNotifyFail [sampleUnprocessedRecord] "uuid-2"
        [sampleVideoDict]).1 sampleUnprocessedRecord.name =
      some (recUpdate sampleUnprocessedRecord (sampleVideoDict.get "id")
        (sampleVideoDict.get "play_url")
        (PyDict.getD [("recording_play_passcode", PyVal.str "pw")]
          "recording_play_passcode" (PyVal.str "")) 2730
        (sampleVideoDict.getD "file_size" (PyVal.int 0))) ∧
    getRecordingProcessed (process_zoom_recording sampleEnvNotifyFail [sampleUnprocessedRecord]
        "uuid-2" [sampleVideoDict]).1 sampleUnprocessedRecord.name = true ∧
    (process_zoom_recording sampleEnvNotifyFail [sampleUnprocessedRecord] "uuid-2"
        [sampleVideoDict]).2 =
      [Effect.tokenAuth sampleUnprocessedRecord.zoom_account,
       Effect.recordingsGet sampleUnprocessedRecord.meeting_id.pyStr,
       Effect.setValue sampleUnprocessedRecord.name, Effect.commit,
       Effect.logError ("Error processing Zoom recording metadata for " ++
         sampleUnprocessedRecord.name ++ ": notification insert failed") zoomLogTitle] :=
  notify_failure_does_not_roll_back sampleEnvNotifyFail [sampleUnprocessedRecord] "uuid-2"
    [sampleVideoDict] sampleUnprocessedRecord sampleVideoDict
    [("recording_play_passcode", PyVal.str "pw")] 2730
    (by decide) (by decide) (by decide) (by decide) (by decide) (by decide) rfl (by decide)
    rfl

/-- Duration defaults to 0 when either timestamp is `None` (absent key
or explicit null): the truthiness guard at source line 255 fails. -/
theorem computeDuration_of_missing (vf : PyDict)
    (h : vf.get "recording_start" = PyVal.none ∨ vf.get "recording_end" = PyVal.none) :
    computeDuration vf = DurOutcome.ok 0 := by
  rcases h with h | h <;> simp [computeDuration, h, PyVal.truthy]

/-- An absent key makes `d.get(k, default)` return the default. -/
theorem getD_of_hasKey_false (d : PyDict) (k : String) (v : PyVal)
    (h : d.hasKey k = false) : d.getD k v = v := by
  rw [PyDict.getD]
  cases hfind : d.find? (fun p => p.1 == k) with
  | none => rfl
  | some p =>
    rw [PyDict.hasKey, hfind] at h
    simp at h

/-- C10: a selected video descriptor lacking `recording_start` or
`recording_end` does not stop or fail the run: the stored duration is 0
and the record is still marked processed; likewise an absent
`file_size` is stored as 0 with the record still marked processed.  So
`recording_processed = true` does not imply the timestamp or size
metadata was present in the webhook payload. -/
theorem missing_metadata_defaults_to_zero
    (env : IngestEnv) (db : List LiveClassRecord) (uuid : String) (files : List PyDict)
    (r : LiveClassRecord) (vf : PyDict) (recData : PyDict)
    (hnodup : (db.map LiveClassRecord.name).Nodup)
    (hfind : findByUuid db uuid = some r)
    (hmode : r.auto_recording = "Cloud")
    (hproc : r.recording_processed = false)
    (hsel : selectVideoFile files = some vf)
    (hmid : r.meeting_id.truthy = true)
    (hapi : env.recordingsApi = ApiOutcome.ok recData) :
    ((vf.get "recording_start" = PyVal.none ∨ vf.get "recording_end" = PyVal.none) →
      computeDuration vf = DurOutcome.ok 0 ∧
      recordOf (process_zoom_recording env db uuid files).1 r.name =
        some (recUpdate r (vf.get "id") (vf.get "play_url")
          (recData.getD "recording_play_passcode" (PyVal.str "")) 0
          (vf.getD "file_size" (PyVal.int 0))) ∧
      getRecordingProcessed (process_zoom_recording env db uuid files).1 r.name = true) ∧
    (∀ dur : Int, computeDuration vf = DurOutcome.ok dur → vf.hasKey "file_size" = false →
      vf.getD "file_size" (PyVal.int 0) = PyVal.int 0 ∧
      recordOf (process_zoom_recording env db uuid files).1 r.name =
        some (recUpdate r (vf.get "id") (vf.get "play_url")
          (recData.getD "recording_play_passcode" (PyVal.str "")) dur (PyVal.int 0)) ∧
      getRecordingProcessed (process_zoom_recording env db uuid files).1 r.name = true) := by
  have hp : getRecordingProcessed db r.name = false := by
    rw [getRecordingProcessed, recordOf_of_mem_nodup (mem_of_findByUuid hfind) hnodup]
    exact hproc
  constructor
  · intro hmiss
    have hdur := computeDuration_of_missing vf hmiss
    have hrun := process_success_path env db uuid files r vf recData 0 hfind hmode hp hsel
      hmid hapi hdur
    have hrec : recordOf (process_zoom_recording env db uuid files).1 r.name =
        some (recUpdate r (vf.get "id") (vf.get "play_url")
          (recData.getD "recording_play_passcode" (PyVal.str "")) 0
          (vf.getD "file_size" (PyVal.int 0))) := by
      rw [hrun]
      exact recordOf_after_update (mem_of_findByUuid hfind) hnodup _ _ _ _ _
    refine ⟨hdur, hrec, ?_⟩
    rw [getRecordingProcessed, hrec]
    rfl
  · intro dur hdur hkey
    have hfsz := getD_of_hasKey_false vf "file_size" (PyVal.int 0) hkey
    have hrun := process_success_path env db uuid files r vf recData dur hfind hmode hp hsel
      hmid hapi hdur
    have hrec : recordOf (process_zoom_recording env db uuid files).1 r.name =
        some (recUpdate r (vf.get "id") (vf.get "play_url")
          (recData.getD "recording_play_passcode" (PyVal.str "")) dur (PyVal.int 0)) := by
      rw [hrun, hfsz]
      exact recordOf_after_update (mem_of_findByUuid hfind) hnodup _ _ _ _ _
    refine ⟨hfsz, hrec, ?_⟩
    rw [getRecordingProcessed, hrec]
    rfl

def sampleBareVideoDict : PyDict :=
  [("file_type", PyVal.str "MP4"), ("recording_type", PyVal.str "gallery_view"),
   ("id", PyVal.str "rec-3"), ("play_url", PyVal.str "https://zoom.example/play3")]

theorem missing_metadata_defaults_to_zero_witness :
    (computeDuration sampleBareVideoDict = DurOutcome.ok 0 ∧
      recordOf (process_zoom_recording sampleEnvOk [sampleUnprocessedRecord] "uuid-2"
          [sampleBareVideoDict]).1 sampleUnprocessedRecord.name =
        some (recUpdate sampleUnprocessedRecord (sampleBareVideoDict.get "id")
          (sampleBareVideoDict.get "play_url")
          (PyDict.getD [("recording_play_passcode", PyVal.str "pw")]
            "recording_play_passcode" (PyVal.str "")) 0
          (sampleBareVideoDict.getD "file_size" (PyVal.int 0))) ∧
      getRecordingProcessed (process_zoom_recording sampleEnvOk [sampleUnprocessedRecord]
          "uuid-2" [sampleBareVideoDict]).1 sampleUnprocessedRecord.name = true) ∧
    (sampleBareVideoDict.getD "file_size" (PyVal.int 0) = PyVal.int 0 ∧
      recordOf (process_zoom_recording sampleEnvOk [sampleUnprocessedRecord] "uuid-2"
          [sampleBareVideoDict]).1 sampleUnprocessedRecord.name =
        some (recUpdate sampleUnprocessedRecord (sampleBareVideoDict.get "id")
          (sampleBareVideoDict.get "play_url")
          (PyDict.getD [("recording_play_passcode", PyVal.str "pw")]
            "recording_play_passcode" (PyVal.str "")) 0 (PyVal.int 0)) ∧
      getRecordingProcessed (process_zoom_recording sampleEnvOk [sampleUnprocessedRecord]
          "uuid-2" [sampleBareVideoDict]).1 sampleUnprocessedRecord.name = true) := by
  have h := missing_metadata_defaults_to_zero sampleEnvOk [sampleUnprocessedRecord] "uuid-2"
    [sampleBareVideoDict] sampleUnprocessedRecord sampleBareVideoDict
    [("recording_play_passcode", PyVal.str "pw")]
    (by decide) (by decide) (by decide) (by decide) (by decide) (by decide) rfl
  exact ⟨h.1 (Or.inl (by decide)), h.2 0 (by decide) (by decide)⟩

/- ### C9: the recipient of the recording-available notification -/

def hostRecord : LiveClassRecord :=
  LiveClassRecord.mk "LC-HOST" "uuid-h" "Hosted class" "2026-01-05" "10:00" "Batch-1" "Cloud"
    "acct" PyVal.none (PyVal.str "123456") (PyVal.str "teacher@example.com") PyVal.none
    false PyVal.none PyVal.none PyVal.none PyVal.none PyVal.none

/-- C9 (code bug): the spec says the recording-available notification is
addressed to the class owner (the host), and the code clearly intends
that (`live_class.get("host", frappe.session.user)` inside
`notify_instructor_recording_available`), but `host` is not among the
six fields fetched at source lines 179-184, so the `.get` always takes
its default and the notification is addressed to the session user.
Here: the record's host is `teacher@example.com`, the session user is
`Administrator`, the run succeeds, and the only notification effect is
addressed to `Administrator`. -/
theorem notification_goes_to_session_user_not_host :
    hostRecord.host = PyVal.str "teacher@example.com" ∧
    sampleEnvOk.sessionUser = "Administrator" ∧
    ((process_zoom_recording sampleEnvOk [hostRecord] "uuid-h" [sampleVideoDict]).2.filter
        Effect.isNotify) =
      [Effect.notifyInsert "Administrator" "Recording available for this live class"
        "LC-HOST"] ∧
    getRecordingProcessed (process_zoom_recording sampleEnvOk [hostRecord] "uuid-h"
        [sampleVideoDict]).1 "LC-HOST" = true := by
  refine ⟨rfl, rfl, ?_, ?_⟩ <;> decide

/- ### C8: failure isolation in the periodic sweeps -/

def sweepClassA : SweepClass := SweepClass.mk "LC-A" "uuid-a" "acct"

def sweepClassB : SweepClass := SweepClass.mk "LC-B" "uuid-b" "acct"

/-- A participants API that fails for `uuid-a` with HTTP 500 and
succeeds for every other class. -/
def sweepApiFailFirst (u : String) : AttApiResult :=
  if u == "uuid-a" then AttApiResult.fail "Internal Server Error"
  else AttApiResult.ok [[("user_email", PyVal.str "student@example.com"),
    ("join_time", PyVal.str "2026-01-05T10:01:00Z"),
    ("leave_time", PyVal.str "2026-01-05T10:50:00Z"),
    ("duration", PyVal.int 2940)]]

/-- C8 counterexample: with two classes in the hourly sweep where the
first one's participants request returns non-200 and the second one's
would succeed, the whole run aborts with the `frappe.throw` of the
first class — the second class is processed in isolation (second
conjunct) but not in this run, contradicting the claim that a failure
on one record does not abort processing of the remaining records. -/
theorem attendance_sweep_aborts_on_first_failure :
    update_attendance sweepApiFailFirst [sweepClassA, sweepClassB] =
      Except.error (attendanceFailMsg sweepClassA "Internal Server Error") ∧
    update_attendance sweepApiFailFirst [sweepClassB] =
      Except.ok (SweepState.mk
        [ParticipantDoc.mk "LC-B" (PyVal.str "student@example.com")
          (PyVal.str "2026-01-05T10:01:00Z") (PyVal.str "2026-01-05T10:50:00Z")
          (PyVal.int 2940)]
        [("LC-B", 1)]) := by
  constructor <;> rfl

/-- Helper: once the attendance loop reaches a class whose participants
request fails, it errors out regardless of the accumulated state and of
the classes still pending. -/
theorem updateAttendanceGo_error (api : String → AttApiResult) (pre : List SweepClass)
    (c : SweepClass) (rest : List SweepClass) (body : String)
    (hpre : ∀ p ∈ pre, ∃ parts, api p.uuid = AttApiResult.ok parts)
    (hc : api c.uuid = AttApiResult.fail body) :
    ∀ st, updateAttendanceGo api (pre ++ c :: rest) st =
      Except.error (attendanceFailMsg c body) := by
  induction pre with
  | nil =>
    intro st
    simp [updateAttendanceGo, hc]
  | cons p tl ih =>
    intro st
    rcases hpre p (List.mem_cons_self p tl) with ⟨parts, hok⟩
    rw [List.cons_append]
    simp only [updateAttendanceGo, hok]
    exact ih (fun q hq => hpre q (List.mem_cons_of_mem p hq)) _

/-- Helper: the student loop succeeds on a list of deliverable
recipients, from any accumulator. -/
theorem sendToStudents_ok (mailOk : String → Bool) (c : ReminderClass)
    (l : List Enrollment) (hok : ∀ e ∈ l, mailOk e.member = true) :
    ∀ acc, ∃ acc', sendToStudents mailOk c l acc = Except.ok acc' := by
  induction l with
  | nil => exact fun acc => ⟨acc, rfl⟩
  | cons e tl ih =>
    intro acc
    simp only [sendToStudents, hok e (List.mem_cons_self e tl), if_true]
    exact ih (fun f hf => hok f (List.mem_cons_of_mem e hf)) _

/-- Helper: the student loop raises at the first failing recipient. -/
theorem sendToStudents_error (mailOk : String → Bool) (c : ReminderClass)
    (st : Enrollment) (srest : List Enrollment) (hfail : mailOk st.member = false) :
    ∀ acc, sendToStudents mailOk c (st :: srest) acc =
      Except.error ("sendmail raised for recipient " ++ st.member) := by
  intro acc
  simp [sendToStudents, hfail]

/-- Helper: once the reminder loop reaches a class with a failing first
recipient, the run errors out regardless of accumulator and pending
classes. -/
theorem reminderGo_error (studentsOf : String → List Enrollment) (mailOk : String → Bool)
    (pre : List ReminderClass) (c : ReminderClass) (rest : List ReminderClass)
    (st : Enrollment) (srest : List Enrollment)
    (hpre : ∀ p ∈ pre, ∀ e ∈ studentsOf p.batch_name, mailOk e.member = true)
    (hstudents : studentsOf c.batch_name = st :: srest)
    (hfail : mailOk st.member = false) :
    ∀ acc, reminderGo studentsOf mailOk (pre ++ c :: rest) acc =
      Except.error ("sendmail raised for recipient " ++ st.member) := by
  induction pre with
  | nil =>
    intro acc
    rw [List.nil_append]
    simp only [reminderGo, hstudents, sendToStudents_error mailOk c st srest hfail acc]
  | cons p tl ih =>
    intro acc
    rcases sendToStudents_ok mailOk p (studentsOf p.batch_name)
      (hpre p (List.mem_cons_self p tl)) acc with ⟨acc', hok⟩
    rw [List.cons_append]
    simp only [reminderGo, hok]
    exact ih (fun q hq => hpre q (List.mem_cons_of_mem p hq)) _

/-- C8 amended: the sweeps do NOT isolate per-record failures.  In the
hourly attendance sweep, when the run reaches a class whose
participants request returns non-200 (all classes before it having
succeeded), the `frappe.throw` terminates the whole run and none of the
remaining classes are processed; likewise in the daily reminder sweep a
`sendmail` exception for the first student of a reached class aborts
the whole run.  The loops at source lines 125-128 and 84-91 contain no
per-record exception handling. -/
theorem sweep_failure_aborts_remaining :
    (∀ (api : String → AttApiResult) (pre : List SweepClass) (c : SweepClass)
      (rest : List SweepClass) (body : String),
      (∀ p ∈ pre, ∃ parts, api p.uuid = AttApiResult.ok parts) →
      api c.uuid = AttApiResult.fail body →
      update_attendance api (pre ++ c :: rest) =
        Except.error (attendanceFailMsg c body)) ∧
    (∀ (studentsOf : String → List Enrollment) (mailOk : String → Bool)
      (pre : List ReminderClass) (c : ReminderClass) (rest : List ReminderClass)
      (st : Enrollment) (srest : List Enrollment),
      (∀ p ∈ pre, ∀ e ∈ studentsOf p.batch_name, mailOk e.member = true) →
      studentsOf c.batch_name = st :: srest →
      mailOk st.member = false →
      send_live_class_reminder studentsOf mailOk (pre ++ c :: rest) =
        Except.error ("sendmail raised for recipient " ++ st.member)) := by
  constructor
  · intro api pre c rest body hpre hc
    exact updateAttendanceGo_error api pre c rest body hpre hc _
  · intro studentsOf mailOk pre c rest st srest hpre hstudents hfail
    exact reminderGo_error studentsOf mailOk pre c rest st srest hpre hstudents hfail _

def reminderClassA : ReminderClass :=
  ReminderClass.mk "LC-RA" "Batch-1" "Algebra" "2026-01-05" "10:00"

def reminderClassB : ReminderClass :=
  ReminderClass.mk "LC-RB" "Batch-2" "Biology" "2026-01-05" "11:00"

def sampleStudentsOf (b : String) : List Enrollment :=
  if b == "Batch-1" then [Enrollment.mk "bad@example.com" "Bad Mailbox"]
  else [Enrollment.mk "ok@example.com" "Fine Mailbox"]

def sampleMailOk (m : String) : Bool := m != "bad@example.com"

theorem sweep_failure_aborts_remaining_witness :
    update_attendance sweepApiFailFirst [sweepClassA, sweepClassB] =
      Except.error (attendanceFailMsg sweepClassA "Internal Server Error") ∧
    send_live_class_reminder sampleStudentsOf sampleMailOk [reminderClassA, reminderClassB] =
      Except.error ("sendmail raised for recipient " ++ "bad@example.com") := by
  constructor
  · exact sweep_failure_aborts_remaining.1 sweepApiFailFirst [] sweepClassA [sweepClassB]
      "Internal Server Error" (by simp) (by decide)
  · exact sweep_failure_aborts_remaining.2 sampleStudentsOf sampleMailOk [] reminderClassA
      [reminderClassB] (Enrollment.mk "bad@example.com" "Bad Mailbox") [] (by simp)
      (by decide) (by decide)

/- ### C3 lemmas: shape of the challenge response -/

/-- Every digest byte is below 256 (each is masked with `&&& 255`). -/
theorem wordBytes_lt (w : Nat) : ∀ b ∈ wordBytes w, b < 256 := by
  intro b hb
  simp only [wordBytes, List.mem_cons, List.not_mem_nil, or_false] at hb
  rcases hb with rfl | rfl | rfl | rfl <;>
    exact Nat.lt_succ_of_le Nat.and_le_right

theorem digestBytes_lt (st : Sha256State) : ∀ b ∈ digestBytes st, b < 256 := by
  intro b hb
  simp only [digestBytes, List.mem_append] at hb
  rcases hb with ((((((h | h) | h) | h) | h) | h) | h) | h <;> exact wordBytes_lt _ b h

theorem digestBytes_length (st : Sha256State) : (digestBytes st).length = 32 := by
  simp [digestBytes, wordBytes]

theorem sha256Bytes_length (msg : List Nat) : (sha256Bytes msg).length = 32 :=
  digestBytes_length _

theorem sha256Bytes_lt (msg : List Nat) : ∀ b ∈ sha256Bytes msg, b < 256 :=
  digestBytes_lt _

theorem hmacSha256_length (key msg : List Nat) : (hmacSha256 key msg).length = 32 :=
  sha256Bytes_length _

theorem hmacSha256_lt (key msg : List Nat) : ∀ b ∈ hmacSha256 key msg, b < 256 :=
  sha256Bytes_lt _

/-- Hex encoding doubles the length. -/
theorem hexOfBytes_length (l : List Nat) : (hexOfBytes l).length = 2 * l.length := by
  show (l.flatMap byteToHex).length = 2 * l.length
  induction l with
  | nil => rfl
  | cons b tl ih =>
    simp only [List.flatMap_cons, List.length_append, ih, byteToHex]
    simp
    omega

/-- A nibble's hex digit is one of the sixteen lowercase hex characters. -/
theorem hexDigit_mem (n : Nat) (h : n < 16) :
    ("0123456789abcdef".data.contains (hexDigit n)) = true := by
  interval_cases n <;> decide

/-- Both hex characters of a byte below 256 are lowercase hex. -/
theorem byteToHex_mem (b : Nat) (hb : b < 256) :
    ∀ c ∈ byteToHex b, ("0123456789abcdef".data.contains c) = true := by
  intro c hc
  simp only [byteToHex, List.mem_cons, List.not_mem_nil, or_false] at hc
  rcases hc with rfl | rfl
  · exact hexDigit_mem _ (Nat.div_lt_of_lt_mul (by omega))
  · exact hexDigit_mem _ (Nat.mod_lt _ (by omega))

/-- The hex encoding of bounded bytes uses only `[0-9a-f]`. -/
theorem hexOfBytes_charset (l : List Nat) (hl : ∀ b ∈ l, b < 256) :
    ((hexOfBytes l).data.all (fun c => "0123456789abcdef".data.contains c)) = true := by
  rw [List.all_eq_true]
  intro c hc
  have hc' : c ∈ l.flatMap byteToHex := hc
  rcases List.mem_flatMap.mp hc' with ⟨b, hb, hcb⟩
  exact byteToHex_mem b (hl b hb) c hcb

/-- C3: the challenge response to an `endpoint.url_validation` event is
a bare JSON object with exactly the two top-level fields `plainToken`
(echoing the token verbatim) and `encryptedToken` (equal to the
lowercase hex encoding of HMAC-SHA256(secret, token)), and for every
secret and token the encrypted token is exactly 64 characters over the
alphabet `[0-9a-f]`. -/
theorem challenge_response_shape (secret token : String) :
    (zoomWebhookValidationResponse secret token).map Prod.fst =
      ["plainToken", "encryptedToken"] ∧
    jsonField (zoomWebhookValidationResponse secret token) "plainToken" = some token ∧
    jsonField (zoomWebhookValidationResponse secret token) "encryptedToken" =
      some (hmacSha256Hex secret token) ∧
    (hmacSha256Hex secret token).length = 64 ∧
    ((hmacSha256Hex secret token).data.all
      (fun c => "0123456789abcdef".data.contains c)) = true := by
  refine ⟨rfl, rfl, rfl, ?_, ?_⟩
  · show (hexOfBytes (hmacSha256 (strBytes secret) (strBytes token))).length = 64
    rw [hexOfBytes_length, hmacSha256_length]
  · exact hexOfBytes_charset _ (hmacSha256_lt _ _)

theorem challenge_response_shape_witness :
    (zoomWebhookValidationResponse "S" "abc123").map Prod.fst =
      ["plainToken", "encryptedToken"] ∧
    jsonField (zoomWebhookValidationResponse "S" "abc123") "plainToken" = some "abc123" ∧
    jsonField (zoomWebhookValidationResponse "S" "abc123") "encryptedToken" =
      some (hmacSha256Hex "S" "abc123") ∧
    (hmacSha256Hex "S" "abc123").length = 64 ∧
    ((hmacSha256Hex "S" "abc123").data.all
      (fun c => "0123456789abcdef".data.contains c)) = true :=
  challenge_response_shape "S" "abc123"

/-- FIPS 180-4 test vector: SHA-256 of `"abc"`. -/
theorem sha256_test_vector :
    hexOfBytes (sha256Bytes (strBytes "abc")) =
      "ba7816bf8f01cfea414140de5dae2223b00361a396177a9cb410ff61f20015ad" := by decide

set_option maxRecDepth 4096 in
/-- RFC 2104 style test vector for HMAC-SHA256, matching
`hmac.new(b"key", b"The quick brown fox jumps over the lazy dog",
hashlib.sha256).hexdigest()`. -/
theorem hmacSha256_test_vector :
    hmacSha256Hex "key" "The quick brown fox jumps over the lazy dog" =
      "f7bc83f430538424b13298e6aa6fb143ef4d59a14946175997479dbc2d1a3cd8" := by decide
